import Mathlib

/-
Verification of the Jafr/Abjad numerology web application.

The numerology core (Abjad lookup table, per-character value, text total,
iterative digit-sum reduction) is embedded from `src/jafr-analyzer.js` and the
inline client script (`src/unnamed/part_001`).  The HTTP handler control flow
is embedded from `src/server/routes.ts`.  JavaScript strings are modelled as
lists of Unicode code points (`List Char`); the UTF-16 code-unit view used by
`split('')` is modelled explicitly by `codeUnitsOf`.
-/

/-- Abjad table from `getAbjadValue` in `src/jafr-analyzer.js` (identical to
`abjadMap` in the client script), in source order: an association list from an
Arabic character to its Abjad weight. -/
def abjadMap : List (Char × Nat) :=
  [('ا', 1), ('أ', 1), ('إ', 1), ('آ', 1), ('ء', 1),
   ('ب', 2), ('ج', 3), ('د', 4), ('ه', 5), ('ة', 5), ('و', 6),
   ('ز', 7), ('ح', 8), ('ط', 9), ('ي', 10), ('ى', 10),
   ('ك', 20), ('ل', 30), ('م', 40), ('ن', 50), ('س', 60),
   ('ع', 70), ('ف', 80), ('ص', 90), ('ق', 100), ('ر', 200),
   ('ش', 300), ('ت', 400), ('ث', 500), ('خ', 600), ('ذ', 700),
   ('ض', 800), ('ظ', 900), ('غ', 1000)]

/-- First-match association-list lookup keyed by Unicode code value, defaulting
to 0: the shallow embedding of the JavaScript `abjadMap[letter] || 0` access
(property keys compare by the character's identity, i.e. its code value). -/
def assocCode : List (Char × Nat) → Nat → Nat
  | [], _ => 0
  | (k, v) :: rest, n => if n = k.toNat then v else assocCode rest n

/-- Abjad value of a UTF-16 code unit / code point given by its numeric value
(the lookups performed by the `split('')` variant see code units). -/
def abjadValueOfCode (n : Nat) : Nat := assocCode abjadMap n

/-- The function `getAbjadValue` of `src/jafr-analyzer.js`:
`abjadMap[letter] || 0`. -/
def getAbjadValue (c : Char) : Nat := abjadValueOfCode c.toNat

/-- The function `calculateNameValue` of `src/jafr-analyzer.js`: a `for...of`
loop (code-point iteration) accumulating `getAbjadValue` over the string. -/
def calculateNameValue (name : List Char) : Nat :=
  name.foldl (fun total c => total + getAbjadValue c) 0

/-- UTF-16 encoding of one code point: BMP code points are one code unit,
astral code points are a surrogate pair. -/
def utf16Units (c : Char) : List Nat :=
  if c.toNat < 65536 then [c.toNat]
  else [55296 + (c.toNat - 65536) / 1024, 56320 + (c.toNat - 65536) % 1024]

/-- The UTF-16 code-unit sequence of a string: what JavaScript `split('')`
iterates over. -/
def codeUnitsOf : List Char → List Nat
  | [] => []
  | c :: rest => utf16Units c ++ codeUnitsOf rest

/-- The function `calculateAbjadValue` of the client script
(`src/unnamed/part_001`): `str.split('').reduce((sum, char) => sum +
(abjadMap[char] || 0), 0)`, i.e. a fold over UTF-16 code units. -/
def calculateAbjadValue (s : List Char) : Nat :=
  (codeUnitsOf s).foldl (fun sum u => sum + abjadValueOfCode u) 0

/-- Sum of the decimal digits of a natural number: the shallow embedding of
`num.toString().split('').reduce((sum, digit) => sum + parseInt(digit), 0)`. -/
def digitSum (n : Nat) : Nat :=
  if h : n = 0 then 0 else n % 10 + digitSum (n / 10)
termination_by n
decreasing_by exact Nat.div_lt_self (Nat.pos_of_ne_zero h) (by omega)

theorem digitSum_le (n : Nat) : digitSum n ≤ n := by
  induction n using Nat.strong_induction_on with
  | _ n ih =>
    by_cases h : n = 0
    · simp [digitSum, h]
    · have hd : n / 10 < n := Nat.div_lt_self (Nat.pos_of_ne_zero h) (by omega)
      have := ih _ hd
      rw [digitSum, dif_neg h]
      omega

theorem digitSum_lt (n : Nat) (h : 9 < n) : digitSum n < n := by
  have hne : n ≠ 0 := by omega
  have hd : digitSum (n / 10) ≤ n / 10 := digitSum_le (n / 10)
  rw [digitSum, dif_neg hne]
  omega

/-- The function `reduceToSingleDigit` of `src/jafr-analyzer.js` (identical in
the client script): `while (num > 9) num = digitSum(num)`. -/
def reduceToSingleDigit (n : Nat) : Nat :=
  if h : 9 < n then reduceToSingleDigit (digitSum n) else n
termination_by n
decreasing_by exact digitSum_lt n h

theorem digitSum_pos (n : Nat) (h : 0 < n) : 0 < digitSum n := by
  induction n using Nat.strong_induction_on with
  | _ n ih =>
    have hne : n ≠ 0 := by omega
    rw [digitSum, dif_neg hne]
    by_cases hm : n % 10 = 0
    · have hq : 0 < n / 10 := by omega
      have := ih (n / 10) (Nat.div_lt_self h (by omega)) hq
      omega
    · omega

theorem digitSum_mod_nine (n : Nat) : digitSum n % 9 = n % 9 := by
  induction n using Nat.strong_induction_on with
  | _ n ih =>
    by_cases h : n = 0
    · simp [digitSum, h]
    · have hd : n / 10 < n := Nat.div_lt_self (Nat.pos_of_ne_zero h) (by omega)
      have := ih _ hd
      rw [digitSum, dif_neg h]
      omega

theorem reduceToSingleDigit_le_nine (n : Nat) : reduceToSingleDigit n ≤ 9 := by
  induction n using Nat.strong_induction_on with
  | _ n ih =>
    rw [reduceToSingleDigit]
    split
    · exact ih _ (digitSum_lt n (by assumption))
    · omega

theorem reduceToSingleDigit_digitalRoot (n : Nat) (h : 0 < n) :
    reduceToSingleDigit n = (n - 1) % 9 + 1 := by
  induction n using Nat.strong_induction_on with
  | _ n ih =>
    rw [reduceToSingleDigit]
    split
    · have hgt : 9 < n := by assumption
      have hrec := ih (digitSum n) (digitSum_lt n hgt) (digitSum_pos n h)
      have hmod := digitSum_mod_nine n
      have hpos := digitSum_pos n h
      omega
    · omega

/-- The single-digit conversion inside `getBasicMeaning` in
`src/server/routes.ts`: `const singleDigit = num % 9 || 9` (in JavaScript a
result of 0 is falsy, so multiples of 9 — including 0 — yield 9). -/
def getBasicMeaningDigit (num : Nat) : Nat :=
  if num % 9 = 0 then 9 else num % 9

theorem digitSum_zero : digitSum 0 = 0 := by simp [digitSum]

theorem digitSum_of_pos (n : Nat) (h : ¬ n = 0) :
    digitSum n = n % 10 + digitSum (n / 10) := by rw [digitSum, dif_neg h]

theorem reduceToSingleDigit_of_gt (n : Nat) (h : 9 < n) :
    reduceToSingleDigit n = reduceToSingleDigit (digitSum n) := by
  rw [reduceToSingleDigit, dif_pos h]

theorem reduceToSingleDigit_of_le (n : Nat) (h : n ≤ 9) :
    reduceToSingleDigit n = n := by
  rw [reduceToSingleDigit, dif_neg (by omega)]

theorem foldl_add_eq_sum {α : Type} (f : α → Nat) (l : List α) (a : Nat) :
    l.foldl (fun t x => t + f x) a = a + (l.map f).sum := by
  induction l generalizing a with
  | nil => simp
  | cons x xs ih =>
    simp only [List.foldl_cons, List.map_cons, List.sum_cons, ih]
    omega

theorem calculateNameValue_eq_sum (s : List Char) :
    calculateNameValue s = (s.map getAbjadValue).sum := by
  simp [calculateNameValue, foldl_add_eq_sum]

theorem calculateAbjadValue_eq_sum (s : List Char) :
    calculateAbjadValue s = ((codeUnitsOf s).map abjadValueOfCode).sum := by
  simp [calculateAbjadValue, foldl_add_eq_sum]

theorem assocCode_eq_zero (l : List (Char × Nat)) (n : Nat)
    (h : ∀ p ∈ l, p.1.toNat ≠ n) : assocCode l n = 0 := by
  induction l with
  | nil => rfl
  | cons p rest ih =>
    obtain ⟨k, v⟩ := p
    have hk : k.toNat ≠ n := h (k, v) (by simp)
    simp only [assocCode]
    rw [if_neg (by omega)]
    exact ih fun q hq => h q (by simp [hq])

theorem abjadMap_keys_small : ∀ p ∈ abjadMap, p.1.toNat < 1792 := by decide

theorem abjadValueOfCode_eq_zero_of_ge (n : Nat) (h : 1792 ≤ n) :
    abjadValueOfCode n = 0 :=
  assocCode_eq_zero _ _ fun p hp => by
    have := abjadMap_keys_small p hp
    omega

theorem char_value_eq_units_sum (c : Char) :
    ((utf16Units c).map abjadValueOfCode).sum = getAbjadValue c := by
  by_cases h : c.toNat < 65536
  · simp [utf16Units, h, getAbjadValue]
  · have h1 : 1792 ≤ 55296 + (c.toNat - 65536) / 1024 := by omega
    have h2 : 1792 ≤ 56320 + (c.toNat - 65536) % 1024 := by omega
    have h3 : 1792 ≤ c.toNat := by omega
    simp [utf16Units, h, getAbjadValue, abjadValueOfCode_eq_zero_of_ge _ h1,
          abjadValueOfCode_eq_zero_of_ge _ h2, abjadValueOfCode_eq_zero_of_ge _ h3]

/-- C1: for every string (including the empty one) the text-value computation
returns the sum over its characters of the per-character Abjad value; both the
`for...of` variant (`calculateNameValue`) and the `split('')` variant
(`calculateAbjadValue`, which sums over UTF-16 code units) are folds equal to
that sum, and both yield 0 on the empty string. -/
theorem claimC1_text_total_is_char_sum :
    (∀ s : List Char, calculateNameValue s = (s.map getAbjadValue).sum) ∧
    calculateNameValue [] = 0 ∧
    (∀ s : List Char, calculateAbjadValue s = ((codeUnitsOf s).map abjadValueOfCode).sum) ∧
    calculateAbjadValue [] = 0 :=
  ⟨calculateNameValue_eq_sum, rfl, calculateAbjadValue_eq_sum, rfl⟩

/-- C2: `reduceToSingleDigit` is total (it is a terminating function of the
embedding), always lands in [0, 9], and satisfies the pinned values
`reduceToSingleDigit 0 = 0`, `reduceToSingleDigit 38 = 2` and
`reduceToSingleDigit 9 = 9`. -/
theorem claimC2_reduce_terminates_and_bounds :
    (∀ n : Nat, reduceToSingleDigit n ≤ 9) ∧
    reduceToSingleDigit 0 = 0 ∧ reduceToSingleDigit 38 = 2 ∧
    reduceToSingleDigit 9 = 9 :=
  ⟨reduceToSingleDigit_le_nine,
   by norm_num [reduceToSingleDigit_of_le],
   by norm_num [reduceToSingleDigit_of_gt, reduceToSingleDigit_of_le,
                digitSum_of_pos, digitSum_zero],
   by norm_num [reduceToSingleDigit_of_le]⟩

/-- C3: the per-character lookup returns the table's value for every entry of
the table, returns 0 for every character whose code is absent from the table
(witnessed generically and at a space, Latin letters, a digit and
punctuation), raises no error (it is a total function), and maps the
hamza-bearing and madda alef forms and the lone hamza to 1 like alef, teh
marbuta to 5 like heh, and alef maksura to 10 like yeh. -/
theorem claimC3_lookup_policy_and_variants :
    (∀ p ∈ abjadMap, getAbjadValue p.1 = p.2) ∧
    (∀ c : Char, c.toNat ∉ abjadMap.map (fun p => p.1.toNat) → getAbjadValue c = 0) ∧
    (getAbjadValue ' ' = 0 ∧ getAbjadValue 'A' = 0 ∧ getAbjadValue 'z' = 0 ∧
     getAbjadValue '7' = 0 ∧ getAbjadValue '!' = 0) ∧
    (getAbjadValue 'أ' = getAbjadValue 'ا' ∧ getAbjadValue 'إ' = getAbjadValue 'ا' ∧
     getAbjadValue 'آ' = getAbjadValue 'ا' ∧ getAbjadValue 'ء' = getAbjadValue 'ا' ∧
     getAbjadValue 'ا' = 1 ∧
     getAbjadValue 'ة' = getAbjadValue 'ه' ∧ getAbjadValue 'ه' = 5 ∧
     getAbjadValue 'ى' = getAbjadValue 'ي' ∧ getAbjadValue 'ي' = 10) := by
  refine ⟨by decide, ?_, by decide, by decide⟩
  intro c hc
  unfold getAbjadValue abjadValueOfCode
  exact assocCode_eq_zero _ _ fun p hp hne => hc (hne ▸ List.mem_map_of_mem _ hp)

/-- Witness for C3 at concrete characters: the table entry for beh and an
absent Latin character. -/
theorem claimC3_witness : getAbjadValue 'ب' = 2 ∧ getAbjadValue 'x' = 0 :=
  ⟨claimC3_lookup_policy_and_variants.1 ('ب', 2) (by decide),
   claimC3_lookup_policy_and_variants.2.1 'x' (by decide)⟩

/-- C4 fails as stated: at the input 9 — a multiple of 9 — the iterative
digit-sum reduction and the `num % 9 || 9` expression do NOT differ; both
return 9, refuting the claim that the two strategies produce different results
at every multiple of 9. -/
theorem claimC4_counterexample :
    9 % 9 = 0 ∧ reduceToSingleDigit 9 = getBasicMeaningDigit 9 := by
  norm_num [reduceToSingleDigit_of_le, getBasicMeaningDigit]

/-- C4 (amended): the two reduction strategies disagree exactly at 0, where
the digit-sum gives 0 and the modulo expression gives 9; at every positive
multiple of 9 they agree, both returning 9. -/
theorem claimC4_amended_disagree_only_at_zero :
    (reduceToSingleDigit 0 = 0 ∧ getBasicMeaningDigit 0 = 9 ∧
     reduceToSingleDigit 0 ≠ getBasicMeaningDigit 0) ∧
    (∀ n : Nat, 0 < n → n % 9 = 0 →
      reduceToSingleDigit n = 9 ∧ getBasicMeaningDigit n = 9) := by
  constructor
  · norm_num [reduceToSingleDigit_of_le, getBasicMeaningDigit]
  · intro n hpos hmod
    have := reduceToSingleDigit_digitalRoot n hpos
    unfold getBasicMeaningDigit
    rw [if_pos hmod]
    omega

/-- Witness for the amended C4 at the positive multiple of 9 given by 18. -/
theorem claimC4_amended_witness :
    reduceToSingleDigit 18 = 9 ∧ getBasicMeaningDigit 18 = 9 :=
  claimC4_amended_disagree_only_at_zero.2 18 (by decide) (by decide)

/-- C8: the name muhammad (meem, hah, meem, dal) has total Abjad value
40 + 8 + 40 + 4 = 92, and the iterative reduction of 92 is 2. -/
theorem claimC8_mohammed_scenario :
    calculateNameValue ['م', 'ح', 'م', 'د'] = 92 ∧ reduceToSingleDigit 92 = 2 :=
  ⟨by decide,
   by norm_num [reduceToSingleDigit_of_gt, reduceToSingleDigit_of_le,
                digitSum_of_pos, digitSum_zero]⟩

/-- C9: on every string the code-point fold of `calculateNameValue` and the
UTF-16 code-unit fold of `calculateAbjadValue` return the same total: BMP
characters contribute one identical lookup in both, and an astral character
contributes 0 in the code-point view while its two surrogate code units each
contribute 0 in the code-unit view. -/
theorem claimC9_codepoint_codeunit_agree :
    ∀ s : List Char, calculateNameValue s = calculateAbjadValue s := by
  intro s
  rw [calculateNameValue_eq_sum, calculateAbjadValue_eq_sum]
  induction s with
  | nil => simp [codeUnitsOf]
  | cons c rest ih =>
    simp only [codeUnitsOf, List.map_cons, List.sum_cons, List.map_append,
               List.sum_append, ih, char_value_eq_units_sum]

/-- C10: on every positive input the iterative digit-sum reduction equals
`(n - 1) % 9 + 1`, which is exactly the `num % 9 || 9` expression of
`getBasicMeaning`; the two strategies coincide on all positive inputs. -/
theorem claimC10_positive_inputs_coincide (n : Nat) (h : 0 < n) :
    reduceToSingleDigit n = (n - 1) % 9 + 1 ∧
    (n - 1) % 9 + 1 = getBasicMeaningDigit n := by
  refine ⟨reduceToSingleDigit_digitalRoot n h, ?_⟩
  unfold getBasicMeaningDigit
  split <;> omega

/-- Witness for C10 at the concrete input 38. -/
theorem claimC10_witness :
    reduceToSingleDigit 38 = (38 - 1) % 9 + 1 ∧
    (38 - 1) % 9 + 1 = getBasicMeaningDigit 38 :=
  claimC10_positive_inputs_coincide 38 (by decide)

/-- Characters removed by JavaScript `String.prototype.trim` that occur in
this domain (space, tab, newline, carriage return). -/
def isSpaceChar (c : Char) : Bool := c = ' ' || c = '\t' || c = '\n' || c = '\r'

/-- JavaScript `s.trim()` on the code-point list model. -/
def jsTrim (s : List Char) : List Char :=
  ((s.dropWhile isSpaceChar).reverse.dropWhile isSpaceChar).reverse

/-- The `!field?.trim()` test of `src/server/routes.ts`: a field is missing
when it is absent (undefined) or trims to the empty string. -/
def isBlank : Option (List Char) → Bool
  | none => true
  | some l => (jsTrim l).isEmpty

/-- Result record of the numerology of one text field. -/
structure NumerologyResult where
  total : Nat
deriving DecidableEq

/-- Modelled from the spec: `calculateBasicNumerology` lives in
`client/src/lib/jafr-utils`, which is not among the sources (only its importer
`src/server/routes.ts` is); per the spec's `computeTextValue` it accumulates
the per-character Abjad value over the text and returns the total. -/
def calculateBasicNumerology (s : List Char) : NumerologyResult :=
  ⟨calculateNameValue s⟩

/-- Modelled from the spec: `calculateWafqSize` lives in
`client/src/lib/jafr-utils`, which is not among the sources; per the spec's
`deriveMagicSquareSize` it is a pure lookup from the reduced digit to a
magic-square order with a documented minimum/default size of 3. -/
def calculateWafqSize (d : Nat) : Nat := if 3 ≤ d ∧ d ≤ 9 then d else 3

/-- A parsed body of the first `/api/jafr/analyze` handler
(`jafrAnalysisRequestSchema` lives in `@shared/schema`, not among the sources;
a request is modelled as parsed when validation succeeded). -/
structure JafrRequest where
  name : List Char
  mother : List Char
  question : List Char
  deepAnalysis : Option Bool
deriving DecidableEq

/-- The `TraditionalResults` record assembled by the first
`/api/jafr/analyze` handler in `src/server/routes.ts`. -/
structure TraditionalResults where
  nameTotal : Nat
  motherTotal : Nat
  questionTotal : Nat
  totalValue : Nat
  reducedValue : Nat
  wafqSize : Nat
deriving DecidableEq

/-- The traditional-results computation of the first `/api/jafr/analyze`
handler: per-field numerology, combined total, reduction, wafq size. -/
def computeTraditionalResults (r : JafrRequest) : TraditionalResults :=
  let n := (calculateBasicNumerology r.name).total
  let m := (calculateBasicNumerology r.mother).total
  let q := (calculateBasicNumerology r.question).total
  let tot := n + m + q
  let red := reduceToSingleDigit tot
  ⟨n, m, q, tot, red, calculateWafqSize red⟩

/-- Outcome of one remote oracle (chat-completion) call. -/
inductive OracleOutcome where
  | ok (text : List Char)
  | failure
deriving DecidableEq

/-- Outcome of the remote API-key test request against the provider. -/
inductive KeyTestOutcome where
  | ok
  | rateLimited
  | unauthorized
  | serverError
  | timedOut
  | networkError
deriving DecidableEq

/-- Observable response of the first `/api/jafr/analyze` handler. -/
structure AnalyzeResponse where
  status : Nat
  success : Bool
  traditionalResults : Option TraditionalResults
  aiAnalysis : Option (List Char)
  combinedInterpretation : Option (List Char)
deriving DecidableEq

/-- Control flow of the first `/api/jafr/analyze` handler of
`src/server/routes.ts`: missing key → 400; schema rejection → 400; otherwise
traditional results are computed, the two oracle calls are attempted when
`options?.deepAnalysis !== false` inside a try/catch whose catch only logs,
and a success response is always returned with whatever the oracle produced
(`aiAnalysis` keeps its value when only the second call failed). -/
def firstAnalyzeHandler (apiKey : Option (List Char)) (body : Option JafrRequest)
    (oracleAnalysis oracleCombined : OracleOutcome) : AnalyzeResponse :=
  match apiKey with
  | none => ⟨400, false, none, none, none⟩
  | some _ =>
    match body with
    | none => ⟨400, false, none, none, none⟩
    | some req =>
      let tr := computeTraditionalResults req
      if req.deepAnalysis = some false then
        ⟨200, true, some tr, none, none⟩
      else
        match oracleAnalysis with
        | OracleOutcome.failure => ⟨200, true, some tr, none, none⟩
        | OracleOutcome.ok a =>
          match oracleCombined with
          | OracleOutcome.failure => ⟨200, true, some tr, some a, none⟩
          | OracleOutcome.ok b => ⟨200, true, some tr, some a, some b⟩

/-- Observable response of the second `/api/jafr/analyze` handler:
status, success flag, the missing-field labels joined into the rejection
message, the error code, whether any outbound network request was made,
whether the advanced-analysis section carries an error, and whether the basic
analysis was computed. -/
structure SecondResponse where
  status : Nat
  success : Bool
  missingFields : List String
  errorCode : Option String
  networkCalled : Bool
  advancedFailed : Bool
  basicComputed : Bool
deriving DecidableEq

/-- Control flow of the second `/api/jafr/analyze` handler of
`src/server/routes.ts`: blank required fields → 400 listing their Arabic
labels with no network traffic; absent key → 400; key not starting `sk-` or
shorter than 30 → 400 with no network traffic; then the remote key test is
made and its rate-limit / auth / server-error / timeout outcomes end the
request; on key-test success an absent `birthDate` makes `birthDate.trim()`
throw into the outer catch (500); otherwise the advanced oracle call is
attempted when `options.includeAdvancedAnalysis !== false` and its failure
only marks the `advancedAnalysis` section while the response stays a 200
success. -/
def secondAnalyzeHandler (name motherName birthDate question : Option (List Char))
    (apiKey : Option (List Char)) (keyTest : KeyTestOutcome)
    (includeAdvanced : Option Bool) (advanced : OracleOutcome) : SecondResponse :=
  let missing : List String :=
    (if isBlank name then ["الاسم"] else []) ++
    (if isBlank motherName then ["اسم الأم"] else []) ++
    (if isBlank question then ["السؤال"] else [])
  if missing ≠ [] then ⟨400, false, missing, none, false, false, false⟩
  else
    match apiKey with
    | none => ⟨400, false, [], some "MISSING_API_KEY", false, false, false⟩
    | some k =>
      if ¬ List.isPrefixOf ['s', 'k', '-'] k ∨ k.length < 30 then
        ⟨400, false, [], some "INVALID_API_KEY_FORMAT", false, false, false⟩
      else
        match keyTest with
        | KeyTestOutcome.rateLimited =>
          ⟨429, false, [], some "RATE_LIMIT_EXCEEDED", true, false, false⟩
        | KeyTestOutcome.unauthorized =>
          ⟨200, false, [], some "INVALID_API_KEY", true, false, false⟩
        | KeyTestOutcome.serverError =>
          ⟨200, false, [], some "API_KEY_VALIDATION_ERROR", true, false, false⟩
        | KeyTestOutcome.timedOut =>
          ⟨504, false, [], some "CONNECTION_TIMEOUT", true, false, false⟩
        | KeyTestOutcome.networkError =>
          ⟨200, false, [], some "API_KEY_VALIDATION_ERROR", true, false, false⟩
        | KeyTestOutcome.ok =>
          match birthDate with
          | none => ⟨500, false, [], none, true, false, false⟩
          | some _ =>
            if includeAdvanced = some false then
              ⟨200, true, [], none, true, false, true⟩
            else
              match advanced with
              | OracleOutcome.ok _ => ⟨200, true, [], none, true, false, true⟩
              | OracleOutcome.failure => ⟨200, true, [], none, true, true, true⟩

/-- Observable response of the `/api/test-api-key` handler. -/
structure TestKeyResponse where
  status : Nat
  valid : Bool
  success : Bool
  networkCalled : Bool
deriving DecidableEq

/-- Control flow of the `/api/test-api-key` handler of `src/server/routes.ts`:
falsy key → 400; key not starting with `sk-` → 400; key shorter than 30 →
400 — all before the outbound test request; only then is the provider
contacted and its outcome mapped to a response. -/
def testApiKeyHandler (apiKey : Option (List Char)) (keyTest : KeyTestOutcome) :
    TestKeyResponse :=
  match apiKey with
  | none => ⟨400, false, false, false⟩
  | some k =>
    if k = [] then ⟨400, false, false, false⟩
    else if ¬ List.isPrefixOf ['s', 'k', '-'] k then ⟨400, false, false, false⟩
    else if k.length < 30 then ⟨400, false, false, false⟩
    else
      match keyTest with
      | KeyTestOutcome.ok => ⟨200, true, true, true⟩
      | KeyTestOutcome.rateLimited => ⟨429, false, false, true⟩
      | KeyTestOutcome.unauthorized => ⟨200, false, false, true⟩
      | KeyTestOutcome.serverError => ⟨200, false, false, true⟩
      | KeyTestOutcome.timedOut => ⟨200, false, false, true⟩
      | KeyTestOutcome.networkError => ⟨200, false, false, true⟩

/-- C5: with a credential present and a parsed body, a failing oracle call
never turns the first `/api/jafr/analyze` handler's response into an error:
if the analysis call fails the response is a 200 success carrying the locally
computed traditional results and no AI narrative; if only the combined call
fails the response is still a 200 success with the traditional results; and in
the second handler, with well-formed fields and a shape-valid live key, a
failing advanced oracle call still yields a 200 success with the basic
analysis computed. -/
theorem claimC5_oracle_failure_still_success :
    (∀ (k : List Char) (req : JafrRequest) (oc : OracleOutcome),
      firstAnalyzeHandler (some k) (some req) OracleOutcome.failure oc =
        ⟨200, true, some (computeTraditionalResults req), none, none⟩) ∧
    (∀ (k : List Char) (req : JafrRequest) (a : List Char),
      (firstAnalyzeHandler (some k) (some req) (OracleOutcome.ok a)
          OracleOutcome.failure).status = 200 ∧
      (firstAnalyzeHandler (some k) (some req) (OracleOutcome.ok a)
          OracleOutcome.failure).success = true ∧
      (firstAnalyzeHandler (some k) (some req) (OracleOutcome.ok a)
          OracleOutcome.failure).traditionalResults =
        some (computeTraditionalResults req)) ∧
    (∀ (nm mo bd qu k : List Char) (inc : Option Bool),
      isBlank (some nm) = false → isBlank (some mo) = false →
      isBlank (some qu) = false →
      List.isPrefixOf ['s', 'k', '-'] k = true → ¬ k.length < 30 →
      inc ≠ some false →
      secondAnalyzeHandler (some nm) (some mo) (some bd) (some qu) (some k)
          KeyTestOutcome.ok inc OracleOutcome.failure =
        ⟨200, true, [], none, true, true, true⟩) := by
  refine ⟨?_, ?_, ?_⟩
  · intro k req oc
    simp only [firstAnalyzeHandler]
    split <;> rfl
  · intro k req a
    simp only [firstAnalyzeHandler]
    split <;> exact ⟨rfl, rfl, rfl⟩
  · intro nm mo bd qu k inc h1 h2 h3 hp hl hinc
    simp [secondAnalyzeHandler, h1, h2, h3, hp, hl, hinc]

/-- Witness for C5 at a concrete request with a shape-valid key and a failing
advanced oracle call. -/
theorem claimC5_witness :
    secondAnalyzeHandler (some ['م']) (some ['ف']) (some ['1']) (some ['س'])
        (some ('s' :: 'k' :: '-' :: List.replicate 27 'a')) KeyTestOutcome.ok
        none OracleOutcome.failure =
      ⟨200, true, [], none, true, true, true⟩ :=
  claimC5_oracle_failure_still_success.2.2 ['م'] ['ف'] ['1'] ['س']
    ('s' :: 'k' :: '-' :: List.replicate 27 'a') none
    (by decide) (by decide) (by decide) (by decide) (by decide) (by decide)

/-- C6: any request to the second `/api/jafr/analyze` handler whose question
field is absent or blank is rejected with HTTP 400 and success=false, the
Arabic label for the question is among the listed missing fields, and no
outbound network request is made. -/
theorem claimC6_missing_question_rejected
    (nm mo bd qu k : Option (List Char)) (kt : KeyTestOutcome)
    (inc : Option Bool) (adv : OracleOutcome) (h : isBlank qu = true) :
    (secondAnalyzeHandler nm mo bd qu k kt inc adv).status = 400 ∧
    (secondAnalyzeHandler nm mo bd qu k kt inc adv).success = false ∧
    "السؤال" ∈ (secondAnalyzeHandler nm mo bd qu k kt inc adv).missingFields ∧
    (secondAnalyzeHandler nm mo bd qu k kt inc adv).networkCalled = false := by
  cases hnm : isBlank nm <;> cases hmo : isBlank mo <;>
    simp [secondAnalyzeHandler, h, hnm, hmo]

/-- Witness for C6 at a concrete request whose question is whitespace only. -/
theorem claimC6_witness :
    (secondAnalyzeHandler (some ['م']) (some ['ف']) (some ['1']) (some [' '])
        (some ['s']) KeyTestOutcome.ok none OracleOutcome.failure).status = 400 ∧
    (secondAnalyzeHandler (some ['م']) (some ['ف']) (some ['1']) (some [' '])
        (some ['s']) KeyTestOutcome.ok none OracleOutcome.failure).success = false ∧
    "السؤال" ∈ (secondAnalyzeHandler (some ['م']) (some ['ف']) (some ['1'])
        (some [' ']) (some ['s']) KeyTestOutcome.ok none
        OracleOutcome.failure).missingFields ∧
    (secondAnalyzeHandler (some ['م']) (some ['ف']) (some ['1']) (some [' '])
        (some ['s']) KeyTestOutcome.ok none
        OracleOutcome.failure).networkCalled = false :=
  claimC6_missing_question_rejected (some ['م']) (some ['ف']) (some ['1'])
    (some [' ']) (some ['s']) KeyTestOutcome.ok none OracleOutcome.failure
    (by decide)

/-- C7: a credential that fails the surface-shape check (no `sk-` prefix or
fewer than 30 characters) is rejected with HTTP 400 by the `/api/test-api-key`
handler and by the second `/api/jafr/analyze` handler, in both cases with no
outbound network request, whatever the other inputs are. -/
theorem claimC7_malformed_credential_rejected_locally
    (k : List Char) (kt : KeyTestOutcome) (nm mo bd qu : Option (List Char))
    (inc : Option Bool) (adv : OracleOutcome)
    (h : ¬ List.isPrefixOf ['s', 'k', '-'] k = true ∨ k.length < 30) :
    testApiKeyHandler (some k) kt = ⟨400, false, false, false⟩ ∧
    (secondAnalyzeHandler nm mo bd qu (some k) kt inc adv).status = 400 ∧
    (secondAnalyzeHandler nm mo bd qu (some k) kt inc adv).success = false ∧
    (secondAnalyzeHandler nm mo bd qu (some k) kt inc adv).networkCalled = false := by
  constructor
  · unfold testApiKeyHandler
    by_cases hk : k = []
    · simp [hk]
    · rcases h with h | h
      · simp [hk, h]
      · by_cases hp : List.isPrefixOf ['s', 'k', '-'] k
        · simp [hk, hp, h]
        · simp [hk, hp]
  · rcases h with h | h <;>
      cases hnm : isBlank nm <;> cases hmo : isBlank mo <;> cases hqu : isBlank qu <;>
        simp [secondAnalyzeHandler, hnm, hmo, hqu, h]

/-- Witness for C7 at a concrete two-character credential lacking the `sk-`
prefix. -/
theorem claimC7_witness :
    testApiKeyHandler (some ['a', 'b']) KeyTestOutcome.ok =
      ⟨400, false, false, false⟩ ∧
    (secondAnalyzeHandler (some ['م']) (some ['ف']) (some ['1']) (some ['س'])
        (some ['a', 'b']) KeyTestOutcome.ok none OracleOutcome.failure).status = 400 ∧
    (secondAnalyzeHandler (some ['م']) (some ['ف']) (some ['1']) (some ['س'])
        (some ['a', 'b']) KeyTestOutcome.ok none
        OracleOutcome.failure).success = false ∧
    (secondAnalyzeHandler (some ['م']) (some ['ف']) (some ['1']) (some ['س'])
        (some ['a', 'b']) KeyTestOutcome.ok none
        OracleOutcome.failure).networkCalled = false :=
  claimC7_malformed_credential_rejected_locally ['a', 'b'] KeyTestOutcome.ok
    (some ['م']) (some ['ف']) (some ['1']) (some ['س']) none
    OracleOutcome.failure (Or.inl (by decide))
